import Mathlib

set_option linter.unnecessarySeqFocus false

/-!
Verification of the `terraform apply` TUI orchestrator of the Lerentis/cli
repository, as a shallow embedding in Lean: the task/status primitive and
cancellation watcher (theme file), the progress-snapshot model (snapshot
file), and the apply orchestrator (`cmd/terraform_apply.go`).

Machine integers in the embedded code (`uint32` counters, `int` spinner
ids) are modelled as `Nat`: no arithmetic is ever performed on them, they
are only stored, rendered and compared for equality.
-/

namespace OvermindCli

/-- Status of one unit of work: `taskStatus` with the constants
`taskStatusPending .. taskStatusSkipped` from the theme file. -/
inductive TaskStatus
  | pending
  | running
  | done
  | errored
  | skipped
deriving DecidableEq

/-- Model of the external `spinner.Model` (charmbracelet bubbles library):
an identity (`ID()`, assigned uniquely at creation by the library's global
counter and never changed afterwards) and the currently rendered frame
(`View()`). The frame art and tick scheduling are library code, outside
this repository; only the id is ever consulted by the repository's code. -/
structure Spinner where
  id : Nat
  frame : String
deriving DecidableEq

/-- `taskModel` from the theme file: a status, a title and a spinner. -/
structure TaskModel where
  status : TaskStatus
  title : String
  spinner : Spinner
deriving DecidableEq

/-- Messages (`tea.Msg` values) that reach the Update functions of this
repository. Identifiers (`uuid.UUID`) are modelled as `Nat`.

The `id` field of the three snapshot events is the identity token that
`tfApplyModel.Update` in `terraform_apply.go` reads as `msg.id` and
compares against a snapshot's `spinner.ID()`; the snapshot file's own
struct declarations omit this field (see the claims about
`snapshotModel.Update`, which per that file ignores it). -/
inductive Msg
  | windowSize (width : Nat)
  | key (s : String)
  | spinnerTick (id : Nat)
  | loadSourcesConfig
  | revlinkWarmupFinished
  | runPlanFinished
  | submitPlanFinished
  | submitPlanNow
  | startStartingSnapshot
  | changeIdentified (u : Nat)
  | startSnapshot (id : Nat) (newState : String)
  | progressSnapshot (id : Nat) (newState : String) (items edges : Nat)
  | finishSnapshot (id : Nat) (newState : String) (items edges : Nat)
  | runTfApply
  | tfApplyFinished
  | fatalErr (text : String)
  | delayQuit
deriving DecidableEq

/-- Commands (`tea.Cmd` values) the embedded Update functions return.
`emit m` is a `func() tea.Msg { return m }` closure; `execTerraform` is
the `tea.ExecProcess` launch of the terraform child process, carrying the
child's `Env` (`none` = nil = inherit the parent environment) and argument
vector; `forwardPlanTasks` records that the message was forwarded to the
`runPlanTask`/`submitPlanTask` sub-models, whose code is outside the
analyzed sources. -/
inductive Cmd
  | emit (msg : Msg)
  | spinnerTickCmd (id : Nat)
  | quitCmd
  | startStartChange
  | startEndChange
  | waitForStartingActivity
  | waitForEndingActivity
  | execTerraform (env : Option (List String)) (args : List String)
  | initRunPlan
  | initSubmitPlan
  | forwardPlanTasks (msg : Msg)
deriving DecidableEq

/-- `NewTaskModel` from the theme file. The spinner's id is assigned by the
library at `spinner.New`; the embedding takes it as a parameter. The
spinner style (Moon frames, colors) is library-rendered and abstracted
into the initial `frame`. -/
def NewTaskModel (title : String) (spinnerId : Nat) : TaskModel :=
  { status := .pending
    title := title
    spinner := { id := spinnerId, frame := "" } }

/-- `taskModel.Init`: ticks the spinner only when already running. -/
def TaskModel.Init (m : TaskModel) : Option Cmd :=
  if m.status = .running then some (.spinnerTickCmd m.spinner.id) else none

/-- Model of the library's `spinner.Model.Update`: reacts only to its own
tick message, re-arming the tick; every other message is ignored. The
frame advance itself is internal to the library and not observable by any
claim, so the frame is left unchanged here. -/
def Spinner.Update (s : Spinner) (msg : Msg) : Spinner × Option Cmd :=
  match msg with
  | .spinnerTick id => if id = s.id then (s, some (.spinnerTickCmd s.id)) else (s, none)
  | _ => (s, none)

/-- `taskModel.Update` from the theme file: the `q` key quits from any
state; any other message is given to the spinner only while running. -/
def TaskModel.Update (m : TaskModel) (msg : Msg) : TaskModel × Option Cmd :=
  match msg with
  | .key s => if s = "q" then (m, some .quitCmd) else (m, none)
  | _ =>
    if m.status = .running then
      let su := m.spinner.Update msg
      ({ m with spinner := su.1 }, su.2)
    else
      (m, none)

/-- `taskModel.View` from the theme file: one glyph per status. In the
running case the source computes a width-padded copy of the spinner frame
but then renders with the unpadded `m.spinner.View()`, so the padded copy
is dead and not reproduced here. The Go switch's `default` branch is
unreachable for the five declared constants and the Lean match is total. -/
def TaskModel.View (m : TaskModel) : String :=
  match m.status with
  | .pending => "⏳ " ++ m.title
  | .running => m.spinner.frame ++ " " ++ m.title
  | .done => "✅ " ++ m.title
  | .errored => "⛔️ " ++ m.title
  | .skipped => "-- " ++ m.title

/-- `snapshotModel` from the snapshot file: an embedded `taskModel`, a
phase label `state` and two `uint32` counters. -/
structure SnapshotModel where
  task : TaskModel
  state : String
  items : Nat
  edges : Nat
deriving DecidableEq

/-- `NewSnapShotModel` from the snapshot file. -/
def NewSnapShotModel (title : String) (spinnerId : Nat) : SnapshotModel :=
  { task := NewTaskModel title spinnerId
    state := "pending"
    items := 0
    edges := 0 }

/-- `snapshotModel.Init`: delegates to the embedded task model. -/
def SnapshotModel.Init (m : SnapshotModel) : Option Cmd :=
  m.task.Init

/-- `snapshotModel.Update` from the snapshot file: the three snapshot
events overwrite label (and, for progress/finish, counters)
unconditionally — the source's case arms consult no identity token (its
struct declarations carry none) and the finish arm changes no status; all
other messages are forwarded to the embedded task model. -/
def SnapshotModel.Update (m : SnapshotModel) (msg : Msg) : SnapshotModel × Option Cmd :=
  match msg with
  | .startSnapshot _ newState => ({ m with state := newState }, none)
  | .progressSnapshot _ newState items edges =>
      ({ m with state := newState, items := items, edges := edges }, none)
  | .finishSnapshot _ newState items edges =>
      ({ m with state := newState, items := items, edges := edges }, none)
  | _ =>
      let tu := m.task.Update msg
      ({ m with task := tu.1 }, tu.2)

/-- `snapshotModel.View` from the snapshot file: the Go if/else chain on
the two counters, each branch a `fmt.Sprintf` around `m.taskModel.View()`
and the phase label. -/
def SnapshotModel.View (m : SnapshotModel) : String :=
  if m.items = 0 ∧ m.edges = 0 then
    m.task.View ++ " - " ++ m.state
  else if m.items = 1 ∧ m.edges = 0 then
    m.task.View ++ " - " ++ m.state ++ ": 1 item"
  else if m.items = 1 ∧ m.edges = 1 then
    m.task.View ++ " - " ++ m.state ++ ": 1 item, 1 edge"
  else if m.items > 1 ∧ m.edges = 0 then
    m.task.View ++ " - " ++ m.state ++ ": " ++ toString m.items ++ " items"
  else if m.items > 1 ∧ m.edges = 1 then
    m.task.View ++ " - " ++ m.state ++ ": " ++ toString m.items ++ " items, 1 edge"
  else
    m.task.View ++ " - " ++ m.state ++ ": " ++ toString m.items ++ " items, "
      ++ toString m.edges ++ " edges"

/-- Flags in `NewTfApplyModel` whose value argument would otherwise be
mistaken for a user-supplied plan file. -/
def stateFlags : List String :=
  ["-backup", "--backup", "-state", "--state", "-state-out", "--state-out"]

/-- Argument spellings that switch auto-approve on in `NewTfApplyModel`. -/
def autoApproveOn : List String :=
  ["-auto-approve", "-auto-approve=true", "-auto-approve=TRUE",
   "--auto-approve", "--auto-approve=true", "--auto-approve=TRUE"]

/-- Argument spellings that switch auto-approve off in `NewTfApplyModel`. -/
def autoApproveOff : List String :=
  ["-auto-approve=false", "-auto-approve=FALSE",
   "--auto-approve=false", "--auto-approve=FALSE"]

/-- The `hasPlanSet` computation at the top of `NewTfApplyModel`. The file
system is a parameter: `stat path = none` models an `os.Stat` error,
`some isDir` a successful stat. `hasPlanSet` becomes true when the last
argument is an existing non-directory file and the preceding argument (when
present) is not a state flag, exactly or with an `=` value attached. -/
def hasPlanSetOf (stat : String → Option Bool) (args : List String) : Bool :=
  match args.getLast? with
  | none => false
  | some lastArg =>
    match stat lastArg with
    | some false =>
        if args.length ≥ 2 then
          let prev := args.getD (args.length - 2) ""
          ! stateFlags.any fun a => prev == a || prev.startsWith (a ++ "=")
        else
          true
    | _ => false

/-- The auto-approve scan `NewTfApplyModel` runs over the argument vector
when no plan file was supplied: each matching argument switches the flag,
later arguments winning. -/
def autoApproveScan (args : List String) : Bool :=
  args.foldl
    (fun acc a =>
      let acc1 := if autoApproveOn.contains a then true else acc
      if autoApproveOff.contains a then false else acc1)
    false

/-- `tfApplyModel` from `terraform_apply.go`. The `ctx`/`oi` pair set by
`loadSourcesConfigMsg` is summarized as `ctxLoaded`; `runPlanArgs` records
the argument vector handed to `NewRunPlanModel` (the plan/submit task
models are outside the analyzed sources and carry no state here). -/
structure TfApplyModel where
  ctxLoaded : Bool
  args : List String
  planFile : String
  needPlan : Bool
  runPlanArgs : List String
  runPlanFinished : Bool
  revlinkWarmupFinished : Bool
  processingHeader : String
  needApproval : Bool
  changeUuid : Nat
  isStarting : Bool
  runTfApply : Bool
  isEnding : Bool
  startingChangeSnapshot : SnapshotModel
  endingChangeSnapshot : SnapshotModel
  progress : List String
  width : Nat
deriving DecidableEq

/-- `NewTfApplyModel` from `terraform_apply.go`. Parameters standing for
the effects and collaborators the constructor uses: `stat` the file
system (as in `hasPlanSetOf`); `tempName` the path `os.CreateTemp`
returns (on a create failure the source exits fatally before a model
exists); `papa` the `planArgsFromApplyArgs` helper, outside the analyzed
sources; the two spinner ids assigned by the library to the starting and
ending snapshots. -/
def NewTfApplyModel (stat : String → Option Bool) (tempName : String)
    (papa : List String → List String) (startId endId : Nat)
    (args : List String) : TfApplyModel :=
  let hasPlanSet := hasPlanSetOf stat args
  let planArgs0 := "plan" :: papa args
  let planFile :=
    if hasPlanSet then (args.getLast?).getD "overmind.plan" else tempName
  let planArgs := if hasPlanSet then planArgs0 else planArgs0 ++ ["-out", planFile]
  let args1 := if hasPlanSet then args else args ++ [planFile]
  let autoapprove := if hasPlanSet then true else autoApproveScan args1
  let argsFinal := "apply" :: args1
  { ctxLoaded := false
    args := argsFinal
    planFile := planFile
    needPlan := ! hasPlanSet
    runPlanArgs := planArgs
    runPlanFinished := hasPlanSet
    revlinkWarmupFinished := false
    processingHeader :=
      "# Applying Changes\n\nApplying changes with `terraform "
        ++ String.intercalate " " argsFinal ++ "`\n"
    needApproval := ! autoapprove
    changeUuid := 0
    isStarting := false
    runTfApply := false
    isEnding := false
    startingChangeSnapshot := NewSnapShotModel "Starting Change" startId
    endingChangeSnapshot := NewSnapShotModel "Ending Change" endId
    progress := []
    width := 0 }

/-- `tfApplyModel.Init`: schedules the plan and submit tasks only when a
plan must still be produced; otherwise the batch is empty. -/
def TfApplyModel.Init (m : TfApplyModel) : List Cmd :=
  if m.needPlan then [.initRunPlan, .initSubmitPlan] else []

/-- The tail every non-early-return branch of `tfApplyModel.Update` runs:
forward the message to both snapshot models and, when a plan is needed, to
the plan and submit task models (their own commands lie outside the
analyzed sources and are recorded as a `forwardPlanTasks` marker). -/
def forwardTail (m : TfApplyModel) (msg : Msg) (cmds : List Cmd) :
    TfApplyModel × List Cmd :=
  let su := m.startingChangeSnapshot.Update msg
  let eu := m.endingChangeSnapshot.Update msg
  let m1 := { m with startingChangeSnapshot := su.1, endingChangeSnapshot := eu.1 }
  let cmds1 := cmds ++ su.2.toList ++ eu.2.toList
  if m1.needPlan then (m1, cmds1 ++ [.forwardPlanTasks msg]) else (m1, cmds1)

/-- The message emitted when the plan/warmup barrier fires: submit the
plan now when one is being produced, else start the starting snapshot. -/
def barrierFireMsg (needPlan : Bool) : Msg :=
  if needPlan then .submitPlanNow else .startStartingSnapshot

/-- `tfApplyModel.Update` from `terraform_apply.go`. `awsProfile` is the
`viper.GetString "aws-profile"` configuration value read in the
`runTfApplyMsg` arm; that arm returns early, skipping the forwarding
tail, with the `tea.ExecProcess` launch (a nil `Env` — `none` — when no
profile is configured, a single-entry environment otherwise, `append` on
a fresh `exec.Cmd`'s nil slice). -/
def TfApplyModel.Update (m : TfApplyModel) (awsProfile : String) (msg : Msg) :
    TfApplyModel × List Cmd :=
  match msg with
  | .windowSize w => forwardTail { m with width := w } msg []
  | .loadSourcesConfig => forwardTail { m with ctxLoaded := true } msg []
  | .revlinkWarmupFinished =>
      let m1 := { m with revlinkWarmupFinished := true }
      forwardTail m1 msg
        (if m1.runPlanFinished then [.emit (barrierFireMsg m1.needPlan)] else [])
  | .runPlanFinished =>
      let m1 := { m with runPlanFinished := true }
      forwardTail m1 msg
        (if m1.revlinkWarmupFinished then [.emit (barrierFireMsg m1.needPlan)] else [])
  | .submitPlanFinished => forwardTail m msg [.emit .startStartingSnapshot]
  | .startStartingSnapshot =>
      let m1 := { m with isStarting := true }
      forwardTail m1 msg
        (m1.startingChangeSnapshot.Init.toList
          ++ [.startStartChange, .waitForStartingActivity])
  | .changeIdentified u =>
      forwardTail { m with changeUuid := u } msg [.waitForStartingActivity]
  | .startSnapshot id _ =>
      forwardTail m msg
        (if id = m.startingChangeSnapshot.task.spinner.id then
          [.waitForStartingActivity]
        else if id = m.endingChangeSnapshot.task.spinner.id then
          [.waitForEndingActivity]
        else [])
  | .progressSnapshot id _ _ _ =>
      forwardTail m msg
        (if id = m.startingChangeSnapshot.task.spinner.id then
          [.waitForStartingActivity]
        else if id = m.endingChangeSnapshot.task.spinner.id then
          [.waitForEndingActivity]
        else [])
  | .finishSnapshot id _ _ _ =>
      if id = m.startingChangeSnapshot.task.spinner.id then
        forwardTail { m with isStarting := false, runTfApply := true } msg
          [.emit .runTfApply]
      else if id = m.endingChangeSnapshot.task.spinner.id then
        forwardTail m msg [.emit .delayQuit]
      else
        forwardTail m msg []
  | .runTfApply =>
      (m, [.execTerraform
            (if awsProfile = "" then none else some ["AWS_PROFILE=" ++ awsProfile])
            m.args])
  | .tfApplyFinished =>
      let m1 := { m with isEnding := true }
      forwardTail m1 msg
        (m1.endingChangeSnapshot.Init.toList
          ++ [.startEndChange, .waitForEndingActivity])
  | _ => forwardTail m msg []

/-- The exit callback the `runTfApplyMsg` arm passes to `tea.ExecProcess`:
a launch or exit error (its text as `exitErr`) is wrapped into a fatal
error keeping the original text; a clean exit becomes
`tfApplyFinishedMsg`. -/
def tfApplyExecCallback (exitErr : Option String) : Msg :=
  match exitErr with
  | some e => .fatalErr ("failed to run terraform apply: " ++ e)
  | none => .tfApplyFinished

/-- Child-process environment semantics of Go's `os/exec`, which the
launch relies on: a nil `Env` (`none`) inherits the parent's environment,
a non-nil `Env` is used verbatim and the parent's is not inherited. -/
def childProcessEnv (cenv : Option (List String)) (parentEnv : List String) :
    List String :=
  match cenv with
  | none => parentEnv
  | some e => e

/-- The two events the `select` in `waitForCancellation` races: a
SIGINT/SIGTERM delivery on the signal channel, or the run's root context
becoming done by any other means. -/
inductive CancelReason
  | signal
  | ctxDone
deriving DecidableEq

/-- What a run of the watcher command did: whether the shared cancel
function was invoked, and whether `tea.Quit` was returned. -/
structure WatchOutcome where
  cancelCalled : Bool
  quitReturned : Bool
deriving DecidableEq

/-- `waitForCancellation` from the theme file: on a signal the shared
cancel function is run and `tea.Quit` returned; on `ctx.Done()` the
select's second arm runs no cancel and the function returns `tea.Quit`. -/
def waitForCancellation : CancelReason → WatchOutcome
  | .signal => { cancelCalled := true, quitReturned := true }
  | .ctxDone => { cancelCalled := false, quitReturned := true }

/-- One message of the `StartChange` server stream, projected through its
getters: `GetState().String()`, `GetNumItems()`, `GetNumEdges()`. -/
structure ChangeStreamMsg where
  state : String
  items : Nat
  edges : Nat
deriving DecidableEq

/-- Name the protobuf `String()` method gives the zero value of the
response state enum: after a stream that closed without delivering any
message, the worker's final `msg` pointer is nil and the generated
getters return zero values. The exact text lives in the sdp protocol
package, outside the analyzed sources. -/
def zeroStateName : String := "STATE_UNSPECIFIED"

/-- Nil-safe `GetState().String()` of the worker's last retained message. -/
def lastState : Option ChangeStreamMsg → String
  | some r => r.state
  | none => zeroStateName

/-- Nil-safe `GetNumItems()` of the worker's last retained message. -/
def lastItems : Option ChangeStreamMsg → Nat
  | some r => r.items
  | none => 0

/-- Nil-safe `GetNumEdges()` of the worker's last retained message. -/
def lastEdges : Option ChangeStreamMsg → Nat
  | some r => r.edges
  | none => 0

/-- Modelled from the spec: `snapshotModel.StartMsg`, called by
`terraform_apply.go` but not declared in the provided snapshot file; per
the spec every public snapshot event carries the emitting instance's
identity token, which the orchestrator reads back as the spinner id. -/
def SnapshotModel.StartMsg (m : SnapshotModel) (newState : String) : Msg :=
  .startSnapshot m.task.spinner.id newState

/-- Modelled from the spec: `snapshotModel.ProgressMsg`, as `StartMsg`. -/
def SnapshotModel.ProgressMsg (m : SnapshotModel) (newState : String)
    (items edges : Nat) : Msg :=
  .progressSnapshot m.task.spinner.id newState items edges

/-- Modelled from the spec: `snapshotModel.FinishMsg`, as `StartMsg`. -/
def SnapshotModel.FinishMsg (m : SnapshotModel) (newState : String)
    (items edges : Nat) : Msg :=
  .finishSnapshot m.task.spinner.id newState items edges

/-- What one run of a lifecycle worker command did: the messages sent on
its bounded channel, in order, and the `tea.Msg` the command returned. -/
structure WorkerOutcome where
  sent : List Msg
  ret : Msg
deriving DecidableEq

/-- The worker closure built by `tfApplyModel.startStartChangeCmd`, its
collaborators as parameters: `snap` the captured starting snapshot;
`cfgTicketLink` the `ticket-link` configuration value; `planTicketLink`
the result of the external plan parser `getTicketLinkFromPlan`;
`identify` the `getChangeUuid` call; `streamOpenErr` whether
`client.StartChange` failed to open; `responses` the messages the stream
delivered before closing; `streamErr` the stream's terminal error, if
any. Errors are carried as their rendered text; `fmt.Errorf` wrapping
prefixes the context and keeps the original text. -/
def startStartChangeCmdRun (snap : SnapshotModel) (cfgTicketLink : String)
    (planTicketLink : Except String String)
    (identify : String → Except String Nat)
    (streamOpenErr : Option String) (responses : List ChangeStreamMsg)
    (streamErr : Option String) : WorkerOutcome :=
  let tl : Except String String :=
    if cfgTicketLink = "" then planTicketLink else .ok cfgTicketLink
  match tl with
  | .error e => { sent := [], ret := .fatalErr e }
  | .ok ticketLink =>
    match identify ticketLink with
    | .error e =>
        { sent := [], ret := .fatalErr ("failed to identify change: " ++ e) }
    | .ok changeUuid =>
      let sent0 : List Msg := [.changeIdentified changeUuid, snap.StartMsg "starting"]
      match streamOpenErr with
      | some e =>
          { sent := sent0, ret := .fatalErr ("failed to start change: " ++ e) }
      | none =>
        let sent1 :=
          sent0 ++ responses.map fun r => snap.ProgressMsg r.state r.items r.edges
        match streamErr with
        | some e =>
            { sent := sent1,
              ret := .fatalErr ("failed to process start change: " ++ e) }
        | none =>
          let last := responses.getLast?
          { sent := sent1,
            ret := snap.FinishMsg (lastState last) (lastItems last) (lastEdges last) }

/-- Process a list of messages through the orchestrator's Update in
order, accumulating every emitted command. -/
def runTrace (awsProfile : String) (m : TfApplyModel) :
    List Msg → TfApplyModel × List Cmd
  | [] => (m, [])
  | msg :: rest =>
    let step := m.Update awsProfile msg
    let restRun := runTrace awsProfile step.1 rest
    (restRun.1, step.2 ++ restRun.2)

/-- Is this command the barrier's fire: the emission of either
`submitPlanNowMsg` or `startStartingSnapshotMsg`. -/
def isBarrierFireCmd : Cmd → Bool
  | .emit .submitPlanNow => true
  | .emit .startStartingSnapshot => true
  | _ => false

/-- Did handling `msg` in state `m` fire the plan/warmup barrier: `msg`
is one of the two completion messages and the step's commands include the
barrier's fire command. -/
def stepFires (awsProfile : String) (m : TfApplyModel) (msg : Msg) : Bool :=
  (msg == .revlinkWarmupFinished || msg == .runPlanFinished)
    && ((m.Update awsProfile msg).2.countP isBarrierFireCmd != 0)

/-- Number of barrier firings along a trace. -/
def fireCount (awsProfile : String) (m : TfApplyModel) : List Msg → Nat
  | [] => 0
  | msg :: rest =>
      (if stepFires awsProfile m msg then 1 else 0)
        + fireCount awsProfile (m.Update awsProfile msg).1 rest

/-- Occurrences of one message in a trace. -/
def countMsg (t : Msg) : List Msg → Nat
  | [] => 0
  | x :: rest => (if x = t then 1 else 0) + countMsg t rest

/-- Is this command the terraform subprocess launch. -/
def isExecCmd : Cmd → Bool
  | .execTerraform _ _ => true
  | _ => false

/-- Is this command the emission of `runTfApplyMsg`. -/
def isEmitRunTfApply : Cmd → Bool
  | .emit .runTfApply => true
  | _ => false

/-- Is this command the initialization of the end-change worker. -/
def isEndInitCmd : Cmd → Bool
  | .startEndChange => true
  | _ => false

/-- Is `msg` the finish event of the starting snapshot of state `m`. -/
def isFinishStartingMsg (m : TfApplyModel) : Msg → Bool
  | .finishSnapshot id _ _ _ => id == m.startingChangeSnapshot.task.spinner.id
  | _ => false

/-- Reference count of barrier firings over a trace, as a function of the
two flags: a completion message fires exactly when the partner flag is
already set, and sets its own flag. -/
def expectedFires : Bool → Bool → List Msg → Nat
  | _, _, [] => 0
  | _, wu, .runPlanFinished :: rest =>
      (if wu then 1 else 0) + expectedFires true wu rest
  | rp, _, .revlinkWarmupFinished :: rest =>
      (if rp then 1 else 0) + expectedFires rp true rest
  | rp, wu, _ :: rest => expectedFires rp wu rest

/-- The claim's preceding-argument test: the argument before the last
one, when present, is a state flag either exactly or with an `=` value
attached, so it would consume the last argument as its value. -/
def prevArgEatsFile (args : List String) : Bool :=
  if args.length ≥ 2 then
    stateFlags.any fun a =>
      args.getD (args.length - 2) "" == a
        || (args.getD (args.length - 2) "").startsWith (a ++ "=")
  else false

/-- The claim's literal rendering table for a snapshot, by case on the
two counters: no suffix at (0,0); singular/plural item forms; an edge
part only when edges are nonzero in the enumerated rows, with edge
pluralization special-casing exactly the value 1; every combination not
enumerated takes the plural-plural form verbatim. -/
def renderClaim (statusView phase : String) (items edges : Nat) : String :=
  match items, edges with
  | 0, 0 => statusView ++ " - " ++ phase
  | 1, 0 => statusView ++ " - " ++ phase ++ ": 1 item"
  | 1, 1 => statusView ++ " - " ++ phase ++ ": 1 item, 1 edge"
  | Nat.succ (Nat.succ n), 0 =>
      statusView ++ " - " ++ phase ++ ": " ++ toString (n + 2) ++ " items"
  | Nat.succ (Nat.succ n), 1 =>
      statusView ++ " - " ++ phase ++ ": " ++ toString (n + 2) ++ " items, 1 edge"
  | i, e =>
      statusView ++ " - " ++ phase ++ ": " ++ toString i ++ " items, "
        ++ toString e ++ " edges"

/-- A concrete orchestrator state for a run with no user-supplied plan
file: empty argument vector, a file system on which every stat fails. -/
def applyModelNoPlan : TfApplyModel :=
  NewTfApplyModel (fun _ => none) "/tmp/overmind-plan" (fun _ => []) 1 2 []

/-- A task update returns no command, the quit command, or its own
spinner's tick. -/
lemma taskCmd_cases (t : TaskModel) (msg : Msg) :
    (t.Update msg).2 = none ∨ (t.Update msg).2 = some .quitCmd
      ∨ (t.Update msg).2 = some (.spinnerTickCmd t.spinner.id) := by
  cases msg <;>
    simp [TaskModel.Update, Spinner.Update] <;>
    (try split) <;>
    simp <;>
    (try split) <;>
    simp

/-- A snapshot update returns no command, the quit command, or its own
spinner's tick. -/
lemma snapCmd_cases (s : SnapshotModel) (msg : Msg) :
    (s.Update msg).2 = none ∨ (s.Update msg).2 = some .quitCmd
      ∨ (s.Update msg).2 = some (.spinnerTickCmd s.task.spinner.id) := by
  cases msg <;>
    first
      | (left; rfl)
      | (simpa only [SnapshotModel.Update] using taskCmd_cases s.task _)

/-- A predicate false on the quit command, on spinner ticks and on the
plan-task forwarding marker counts the same commands before and after the
forwarding tail. -/
lemma forwardTail_countP (p : Cmd → Bool) (hq : p .quitCmd = false)
    (ht : ∀ i, p (.spinnerTickCmd i) = false)
    (hf : ∀ mm, p (.forwardPlanTasks mm) = false)
    (m : TfApplyModel) (msg : Msg) (cmds : List Cmd) :
    ((forwardTail m msg cmds).2).countP p = cmds.countP p := by
  unfold forwardTail
  rcases snapCmd_cases m.startingChangeSnapshot msg with h1 | h1 | h1 <;>
    rcases snapCmd_cases m.endingChangeSnapshot msg with h2 | h2 | h2 <;>
      simp only [h1, h2, Option.toList] <;>
      split <;>
      simp [List.countP_append, List.countP_cons, hq, ht, hf]

/-- A snapshot's init command is nothing or its own spinner's tick. -/
lemma snapInit_cases (s : SnapshotModel) :
    s.Init = none ∨ s.Init = some (.spinnerTickCmd s.task.spinner.id) := by
  simp only [SnapshotModel.Init, TaskModel.Init]
  split <;> simp

/-- One update step launches the subprocess exactly on `runTfApplyMsg`. -/
lemma update_exec_count (aws : String) (m : TfApplyModel) (msg : Msg) :
    ((m.Update aws msg).2).countP isExecCmd
      = if msg = .runTfApply then 1 else 0 := by
  have hq : isExecCmd .quitCmd = false := rfl
  have ht : ∀ i, isExecCmd (.spinnerTickCmd i) = false := fun _ => rfl
  have hf : ∀ mm, isExecCmd (.forwardPlanTasks mm) = false := fun _ => rfl
  cases msg <;>
    simp only [TfApplyModel.Update, barrierFireMsg] <;>
    (repeat' split) <;>
    (try rw [forwardTail_countP _ hq ht hf]) <;>
    simp_all [isExecCmd, List.countP_cons, List.countP_append, Option.toList] <;>
    (first
      | (rcases snapInit_cases m.startingChangeSnapshot with h | h <;>
          simp [h, isExecCmd])
      | (rcases snapInit_cases m.endingChangeSnapshot with h | h <;>
          simp [h, isExecCmd]))

/-- One update step emits `runTfApplyMsg` exactly on the starting
snapshot's finish event. -/
lemma update_emitRun_count (aws : String) (m : TfApplyModel) (msg : Msg) :
    ((m.Update aws msg).2).countP isEmitRunTfApply
      = if isFinishStartingMsg m msg then 1 else 0 := by
  have hq : isEmitRunTfApply .quitCmd = false := rfl
  have ht : ∀ i, isEmitRunTfApply (.spinnerTickCmd i) = false := fun _ => rfl
  have hf : ∀ mm, isEmitRunTfApply (.forwardPlanTasks mm) = false := fun _ => rfl
  cases msg <;>
    simp only [TfApplyModel.Update, barrierFireMsg, isFinishStartingMsg] <;>
    (repeat' split) <;>
    (try rw [forwardTail_countP _ hq ht hf]) <;>
    simp_all [isEmitRunTfApply, List.countP_cons, List.countP_append,
      Option.toList] <;>
    (first
      | (rcases snapInit_cases m.startingChangeSnapshot with h | h <;>
          simp [h, isEmitRunTfApply])
      | (rcases snapInit_cases m.endingChangeSnapshot with h | h <;>
          simp [h, isEmitRunTfApply]))

/-- One update step initializes the end-change worker exactly on
`tfApplyFinishedMsg`. -/
lemma update_endInit_count (aws : String) (m : TfApplyModel) (msg : Msg) :
    ((m.Update aws msg).2).countP isEndInitCmd
      = if msg = .tfApplyFinished then 1 else 0 := by
  have hq : isEndInitCmd .quitCmd = false := rfl
  have ht : ∀ i, isEndInitCmd (.spinnerTickCmd i) = false := fun _ => rfl
  have hf : ∀ mm, isEndInitCmd (.forwardPlanTasks mm) = false := fun _ => rfl
  cases msg <;>
    simp only [TfApplyModel.Update, barrierFireMsg] <;>
    (repeat' split) <;>
    (try rw [forwardTail_countP _ hq ht hf]) <;>
    simp_all [isEndInitCmd, List.countP_cons, List.countP_append,
      Option.toList] <;>
    (first
      | (rcases snapInit_cases m.startingChangeSnapshot with h | h <;>
          simp [h, isEndInitCmd])
      | (rcases snapInit_cases m.endingChangeSnapshot with h | h <;>
          simp [h, isEndInitCmd]))

/-- Along a trace, subprocess launches match `runTfApplyMsg` receipts. -/
lemma runTrace_exec_count (aws : String) (trace : List Msg) :
    ∀ m : TfApplyModel,
      ((runTrace aws m trace).2).countP isExecCmd
        = countMsg .runTfApply trace := by
  induction trace with
  | nil => intro m; simp [runTrace, countMsg]
  | cons msg rest ih =>
      intro m
      simp [runTrace, countMsg, List.countP_append, update_exec_count, ih]

/-- Along a trace, end-change worker initializations match
`tfApplyFinishedMsg` receipts. -/
lemma runTrace_endInit_count (aws : String) (trace : List Msg) :
    ∀ m : TfApplyModel,
      ((runTrace aws m trace).2).countP isEndInitCmd
        = countMsg .tfApplyFinished trace := by
  induction trace with
  | nil => intro m; simp [runTrace, countMsg]
  | cons msg rest ih =>
      intro m
      simp [runTrace, countMsg, List.countP_append, update_endInit_count, ih]

/-- The forwarding tail changes only the two snapshot fields. -/
lemma forwardTail_model (m : TfApplyModel) (msg : Msg) (cmds : List Cmd) :
    (forwardTail m msg cmds).1
      = { m with
          startingChangeSnapshot := (m.startingChangeSnapshot.Update msg).1
          endingChangeSnapshot := (m.endingChangeSnapshot.Update msg).1 } := by
  simp only [forwardTail]
  split <;> rfl

/-- An update step sets `runPlanFinished` on its completion message and
never clears it. -/
lemma update_runPlanFinished (aws : String) (m : TfApplyModel) (msg : Msg) :
    ((m.Update aws msg).1).runPlanFinished
      = (if msg = .runPlanFinished then true else m.runPlanFinished) := by
  cases msg <;>
    simp only [TfApplyModel.Update] <;>
    (repeat' split) <;>
    simp_all [forwardTail_model]

/-- An update step sets `revlinkWarmupFinished` on its completion message
and never clears it. -/
lemma update_revlinkFinished (aws : String) (m : TfApplyModel) (msg : Msg) :
    ((m.Update aws msg).1).revlinkWarmupFinished
      = (if msg = .revlinkWarmupFinished then true else m.revlinkWarmupFinished) := by
  cases msg <;>
    simp only [TfApplyModel.Update] <;>
    (repeat' split) <;>
    simp_all [forwardTail_model]

/-- A step fires the barrier exactly on a completion message whose
partner flag is already set. -/
lemma stepFires_eq (aws : String) (m : TfApplyModel) (msg : Msg) :
    stepFires aws m msg
      = (if msg = .runPlanFinished then m.revlinkWarmupFinished
         else if msg = .revlinkWarmupFinished then m.runPlanFinished
         else false) := by
  have hq : isBarrierFireCmd .quitCmd = false := rfl
  have ht : ∀ i, isBarrierFireCmd (.spinnerTickCmd i) = false := fun _ => rfl
  have hf : ∀ mm, isBarrierFireCmd (.forwardPlanTasks mm) = false := fun _ => rfl
  cases msg <;>
    simp only [stepFires, TfApplyModel.Update, barrierFireMsg] <;>
    (repeat' split) <;>
    (try rw [forwardTail_countP _ hq ht hf]) <;>
    simp_all [isBarrierFireCmd, List.countP_cons, List.countP_append,
      Option.toList]

/-- The embedded orchestrator's firing count equals the reference count
started from its two flags. -/
lemma fireCount_expected (aws : String) (trace : List Msg) :
    ∀ m : TfApplyModel,
      fireCount aws m trace
        = expectedFires m.runPlanFinished m.revlinkWarmupFinished trace := by
  induction trace with
  | nil => intro m; rfl
  | cons msg rest ih =>
      intro m
      rw [fireCount, ih, stepFires_eq]
      cases msg <;>
        simp [expectedFires, update_runPlanFinished, update_revlinkFinished]

/-- A message that is neither completion message leaves the reference
count untouched. -/
lemma expectedFires_cons_other {msg : Msg} (rp wu : Bool) (rest : List Msg)
    (h1 : msg ≠ .runPlanFinished) (h2 : msg ≠ .revlinkWarmupFinished) :
    expectedFires rp wu (msg :: rest) = expectedFires rp wu rest := by
  cases msg <;> simp_all [expectedFires]

/-- With neither completion message in the trace, nothing fires. -/
lemma expectedFires_zero (trace : List Msg) :
    ∀ rp wu, countMsg .runPlanFinished trace = 0 →
      countMsg .revlinkWarmupFinished trace = 0 →
      expectedFires rp wu trace = 0 := by
  induction trace with
  | nil => intro rp wu _ _; rfl
  | cons msg rest ih =>
      intro rp wu h1 h2
      by_cases hr : msg = .runPlanFinished
      · subst hr; simp [countMsg] at h1
      · by_cases hw : msg = .revlinkWarmupFinished
        · subst hw; simp [countMsg] at h2
        · rw [expectedFires_cons_other rp wu rest hr hw]
          simp [countMsg, hr, hw] at h1 h2
          exact ih rp wu h1 h2

/-- With the plan flag already set and no further plan-completion
message, a single warmup completion fires exactly once. -/
lemma expectedFires_one_rp_set (trace : List Msg) :
    countMsg .runPlanFinished trace = 0 →
      countMsg .revlinkWarmupFinished trace = 1 →
      expectedFires true false trace = 1 := by
  induction trace with
  | nil => intro _ h2; simp [countMsg] at h2
  | cons msg rest ih =>
      intro h1 h2
      by_cases hw : msg = .revlinkWarmupFinished
      · subst hw
        simp [countMsg] at h1 h2
        simp [expectedFires, expectedFires_zero rest true true h1 h2]
      · by_cases hr : msg = .runPlanFinished
        · subst hr; simp [countMsg] at h1
        · rw [expectedFires_cons_other true false rest hr hw]
          simp [countMsg, hr, hw] at h1 h2
          exact ih h1 h2

/-- With the warmup flag already set and no further warmup-completion
message, a single plan completion fires exactly once. -/
lemma expectedFires_one_wu_set (trace : List Msg) :
    countMsg .runPlanFinished trace = 1 →
      countMsg .revlinkWarmupFinished trace = 0 →
      expectedFires false true trace = 1 := by
  induction trace with
  | nil => intro h1 _; simp [countMsg] at h1
  | cons msg rest ih =>
      intro h1 h2
      by_cases hr : msg = .runPlanFinished
      · subst hr
        simp [countMsg] at h1 h2
        simp [expectedFires, expectedFires_zero rest true true h1 h2]
      · by_cases hw : msg = .revlinkWarmupFinished
        · subst hw; simp [countMsg] at h2
        · rw [expectedFires_cons_other false true rest hr hw]
          simp [countMsg, hr, hw] at h1 h2
          exact ih h1 h2

/-- Starting from both flags clear, a trace carrying each completion
message exactly once fires exactly once, whatever the order. -/
lemma expectedFires_once (trace : List Msg) :
    countMsg .runPlanFinished trace = 1 →
      countMsg .revlinkWarmupFinished trace = 1 →
      expectedFires false false trace = 1 := by
  induction trace with
  | nil => intro h1 _; simp [countMsg] at h1
  | cons msg rest ih =>
      intro h1 h2
      by_cases hr : msg = .runPlanFinished
      · subst hr
        simp [countMsg] at h1 h2
        simp [expectedFires, expectedFires_one_rp_set rest h1 h2]
      · by_cases hw : msg = .revlinkWarmupFinished
        · subst hw
          simp [countMsg] at h1 h2
          simp [expectedFires, expectedFires_one_wu_set rest h1 h2]
        · rw [expectedFires_cons_other false false rest hr hw]
          simp [countMsg, hr, hw] at h1 h2
          exact ih h1 h2

/-- With no warmup completion in the trace and the warmup flag clear,
nothing fires, however many plan completions arrive. -/
lemma expectedFires_no_wu (trace : List Msg) :
    ∀ rp : Bool, countMsg .revlinkWarmupFinished trace = 0 →
      expectedFires rp false trace = 0 := by
  induction trace with
  | nil => intro rp _; rfl
  | cons msg rest ih =>
      intro rp h2
      by_cases hw : msg = .revlinkWarmupFinished
      · subst hw; simp [countMsg] at h2
      · by_cases hr : msg = .runPlanFinished
        · subst hr
          simp [countMsg] at h2
          simp [expectedFires, ih true h2]
        · rw [expectedFires_cons_other rp false rest hr hw]
          simp [countMsg, hw] at h2
          exact ih rp h2

/-- With no plan completion in the trace and the plan flag clear,
nothing fires, however many warmup completions arrive. -/
lemma expectedFires_no_rp (trace : List Msg) :
    ∀ wu : Bool, countMsg .runPlanFinished trace = 0 →
      expectedFires false wu trace = 0 := by
  induction trace with
  | nil => intro wu _; rfl
  | cons msg rest ih =>
      intro wu h1
      by_cases hr : msg = .runPlanFinished
      · subst hr; simp [countMsg] at h1
      · by_cases hw : msg = .revlinkWarmupFinished
        · subst hw
          simp [countMsg] at h1
          simp [expectedFires, ih true h1]
        · rw [expectedFires_cons_other false wu rest hr hw]
          simp [countMsg, hr] at h1
          exact ih wu h1

/-- C1 (amended): starting from both barrier flags clear, a run whose
update loop receives each completion message exactly once fires the
commit-to-starting transition (emitting `submitPlanNowMsg` when a plan is
needed, else `startStartingSnapshotMsg`) exactly once, triggered by
whichever completion message arrives second, and receives of only one
kind of completion message never fire it; the original claim's further
idempotence — that a duplicated completion message after the barrier has
fired does not re-fire it — does not hold of the code (see the
counterexample): each completion handler re-runs the check-and-fire
unconditionally. -/
theorem c1_barrier_fires_once_per_completion_pair (aws : String)
    (m : TfApplyModel) (trace : List Msg)
    (h1 : m.runPlanFinished = false) (h2 : m.revlinkWarmupFinished = false) :
    (countMsg .runPlanFinished trace = 1 →
        countMsg .revlinkWarmupFinished trace = 1 →
        fireCount aws m trace = 1)
    ∧ (countMsg .revlinkWarmupFinished trace = 0 → fireCount aws m trace = 0)
    ∧ (countMsg .runPlanFinished trace = 0 → fireCount aws m trace = 0) := by
  rw [fireCount_expected aws trace m, h1, h2]
  exact ⟨expectedFires_once trace, expectedFires_no_wu trace false,
    expectedFires_no_rp trace false⟩

/-- C1 witness: on the plan-then-warmup order from the initial no-plan
state, the barrier fires exactly once. -/
theorem c1_barrier_witness :
    fireCount "" applyModelNoPlan [.runPlanFinished, .revlinkWarmupFinished] = 1 :=
  (c1_barrier_fires_once_per_completion_pair "" applyModelNoPlan
      [.runPlanFinished, .revlinkWarmupFinished] rfl rfl).1 (by decide) (by decide)

/-- C1 counterexample: after both completion messages have arrived and
the barrier fired, a third, duplicated completion message re-fires the
transition — the trace fires twice, where the claim requires that once
fired, a subsequent arrival of either completion message not re-fire
it. -/
theorem c1_barrier_refire_counterexample :
    fireCount "" applyModelNoPlan
        [.runPlanFinished, .revlinkWarmupFinished, .revlinkWarmupFinished] = 2
    ∧ (2 : Nat) ≠ 1 := by
  exact ⟨by decide, by decide⟩

/-- C2: per update step, the terraform subprocess is launched exactly on
`runTfApplyMsg` and `runTfApplyMsg` is emitted exactly on the starting
snapshot's finish event, so the launch happens strictly after the
start-change worker's finish; the end-change worker is initialized
exactly on `tfApplyFinishedMsg`; the exec exit callback wraps a launch or
exit failure into a fatal error carrying the original failure text and
turns a clean exit into `tfApplyFinishedMsg`; along any trace, launches
equal `runTfApplyMsg` receipts and end-change initializations equal
`tfApplyFinishedMsg` receipts — each exactly once per run. -/
theorem c2_subprocess_once_between_workers :
    (∀ (aws : String) (m : TfApplyModel) (msg : Msg),
        ((m.Update aws msg).2).countP isExecCmd
          = if msg = .runTfApply then 1 else 0)
    ∧ (∀ (aws : String) (m : TfApplyModel) (msg : Msg),
        ((m.Update aws msg).2).countP isEmitRunTfApply
          = if isFinishStartingMsg m msg then 1 else 0)
    ∧ (∀ (aws : String) (m : TfApplyModel) (msg : Msg),
        ((m.Update aws msg).2).countP isEndInitCmd
          = if msg = .tfApplyFinished then 1 else 0)
    ∧ (∀ e, tfApplyExecCallback (some e)
          = .fatalErr ("failed to run terraform apply: " ++ e))
    ∧ tfApplyExecCallback none = .tfApplyFinished
    ∧ (∀ (aws : String) (m : TfApplyModel) (trace : List Msg),
        ((runTrace aws m trace).2).countP isExecCmd
          = countMsg .runTfApply trace)
    ∧ (∀ (aws : String) (m : TfApplyModel) (trace : List Msg),
        ((runTrace aws m trace).2).countP isEndInitCmd
          = countMsg .tfApplyFinished trace) :=
  ⟨update_exec_count, update_emitRun_count, update_endInit_count,
    fun _ => rfl, rfl,
    fun aws m trace => runTrace_exec_count aws trace m,
    fun aws m trace => runTrace_endInit_count aws trace m⟩

/-- C3: the start-change worker resolves the ticket link from
configuration, falling back to the plan parser exactly when the
configured value is empty; a failed resolution returns that fatal error
with nothing emitted; an identify failure returns a wrapped fatal error
with nothing emitted; on success it emits the assigned change id once and
then the Start event; a stream-open failure or stream error returns a
wrapped fatal error after those emissions (plus one Progress per received
message in the stream-error case) and no Finish is emitted; on clean
closure after at least one message it returns the Finish event carrying
the last received label and counts, after exactly one Progress emission
per received message. -/
theorem c3_start_change_worker_contract :
    (∀ snap cfg pr idf oe rs se,
        startStartChangeCmdRun snap cfg pr idf oe rs se
          = startStartChangeCmdRun snap "" (if cfg = "" then pr else .ok cfg)
              idf oe rs se)
    ∧ (∀ snap e idf oe rs se,
        startStartChangeCmdRun snap "" (.error e) idf oe rs se
          = { sent := [], ret := .fatalErr e })
    ∧ (∀ snap cfg tl e oe rs se,
        startStartChangeCmdRun snap cfg (.ok tl) (fun _ => .error e) oe rs se
          = { sent := [],
              ret := .fatalErr ("failed to identify change: " ++ e) })
    ∧ (∀ snap cfg tl u e rs se,
        startStartChangeCmdRun snap cfg (.ok tl) (fun _ => .ok u) (some e) rs se
          = { sent := [.changeIdentified u, snap.StartMsg "starting"],
              ret := .fatalErr ("failed to start change: " ++ e) })
    ∧ (∀ snap cfg tl u rs e,
        startStartChangeCmdRun snap cfg (.ok tl) (fun _ => .ok u) none rs (some e)
          = { sent := [.changeIdentified u, snap.StartMsg "starting"]
                ++ rs.map fun r => snap.ProgressMsg r.state r.items r.edges,
              ret := .fatalErr ("failed to process start change: " ++ e) })
    ∧ (∀ snap cfg tl u rs r,
        startStartChangeCmdRun snap cfg (.ok tl) (fun _ => .ok u) none
            (rs ++ [r]) none
          = { sent := [.changeIdentified u, snap.StartMsg "starting"]
                ++ (rs ++ [r]).map
                    fun rr => snap.ProgressMsg rr.state rr.items rr.edges,
              ret := snap.FinishMsg r.state r.items r.edges }) := by
  refine ⟨?_, ?_, ?_, ?_, ?_, ?_⟩
  · intro snap cfg pr idf oe rs se
    by_cases h : cfg = "" <;> simp [startStartChangeCmdRun, h]
  · intro snap e idf oe rs se
    rfl
  · intro snap cfg tl e oe rs se
    by_cases h : cfg = "" <;> simp [startStartChangeCmdRun, h]
  · intro snap cfg tl u e rs se
    by_cases h : cfg = "" <;> simp [startStartChangeCmdRun, h]
  · intro snap cfg tl u rs e
    by_cases h : cfg = "" <;> simp [startStartChangeCmdRun, h]
  · intro snap cfg tl u rs r
    by_cases h : cfg = "" <;>
      simp [startStartChangeCmdRun, h, List.getLast?_concat, lastState,
        lastItems, lastEdges]

/-- C4: the claim fails on the provided snapshot code — its events carry
no identity token at all (the orchestrator reads `msg.id`, a field the
snapshot file's structs do not declare) and `snapshotModel.Update`
applies every Start/Progress/Finish event unconditionally: a Progress
event dispatched (per the orchestrator's id comparison) to spinner id 1
also rewrites the visible state of an instance whose spinner id is 2,
where the claim requires that instance to be left unchanged. -/
theorem c4_snapshot_update_ignores_nothing :
    ((NewSnapShotModel "Ending Change" 2).Update
        (.progressSnapshot 1 "running" 3 4)).1.items = 3
    ∧ ((NewSnapShotModel "Ending Change" 2).Update
        (.progressSnapshot 1 "running" 3 4)).1.state = "running"
    ∧ (NewSnapShotModel "Ending Change" 2).items = 0
    ∧ (NewSnapShotModel "Ending Change" 2).state = "pending"
    ∧ (1 : Nat) ≠ 2 :=
  ⟨rfl, rfl, rfl, rfl, by decide⟩

/-- C5: in the provided snapshot code a Finish event sets the phase
label and both counters exactly as a Progress event does, but does not
touch the embedded status: from a fresh instance (status Pending) a
Finish event leaves the status Pending instead of setting it to Done as
the claim requires. -/
theorem c5_finish_does_not_set_done :
    ((NewSnapShotModel "Starting Change" 1).Update
        (.finishSnapshot 1 "done" 5 6)).1
      = ((NewSnapShotModel "Starting Change" 1).Update
          (.progressSnapshot 1 "done" 5 6)).1
    ∧ ((NewSnapShotModel "Starting Change" 1).Update
        (.finishSnapshot 1 "done" 5 6)).1.task.status = .pending
    ∧ TaskStatus.pending ≠ TaskStatus.done :=
  ⟨rfl, rfl, by decide⟩

/-- C6: the snapshot rendering function realizes the claim's literal
table — no counter suffix at (0,0), singular and plural item forms,
`1 edge` exactly for the edge value 1 in the enumerated rows, and the
plural-plural form for every other combination. -/
theorem c6_snapshot_render_table (m : SnapshotModel) :
    m.View = renderClaim m.task.View m.state m.items m.edges := by
  rcases m with ⟨t, st, i, e⟩
  match i, e with
  | 0, 0 => rfl
  | 0, 1 => rfl
  | 0, e + 2 => rfl
  | 1, 0 => rfl
  | 1, 1 => rfl
  | 1, e + 2 => rfl
  | i + 2, 0 => simp [SnapshotModel.View, renderClaim]
  | i + 2, 1 => simp [SnapshotModel.View, renderClaim]
  | i + 2, e + 2 => simp [SnapshotModel.View, renderClaim]

/-- C7: when the user supplied a plan file on the command line (the
constructor's plan detection reports one), the plan-side barrier flag
starts pre-set true and Init schedules no plan or submit task. -/
theorem c7_plan_supplied_skips_planning (stat : String → Option Bool)
    (tempName : String) (papa : List String → List String)
    (startId endId : Nat) (args : List String)
    (h : hasPlanSetOf stat args = true) :
    (NewTfApplyModel stat tempName papa startId endId args).runPlanFinished
        = true
    ∧ (NewTfApplyModel stat tempName papa startId endId args).Init = [] := by
  constructor
  · simp [NewTfApplyModel, h]
  · simp [TfApplyModel.Init, NewTfApplyModel, h]

/-- C7 witness: a single-argument vector naming an existing
non-directory file. -/
theorem c7_plan_supplied_witness :
    (NewTfApplyModel (fun _ => some false) "/tmp/t" (fun _ => []) 1 2
        ["plan.out"]).runPlanFinished = true
    ∧ (NewTfApplyModel (fun _ => some false) "/tmp/t" (fun _ => []) 1 2
        ["plan.out"]).Init = [] :=
  c7_plan_supplied_skips_planning (fun _ => some false) "/tmp/t" (fun _ => [])
    1 2 ["plan.out"] (by decide)

/-- C8 (amended): whichever of the two raced events occurs, the watcher
returns the quit message requesting loop shutdown; the shared
cancellation function, however, is invoked exactly on the signal outcome
— on a root-context cancellation the watcher returns quit without
invoking it (see the counterexample against the original claim). -/
theorem c8_watcher_quits_cancels_on_signal_only (r : CancelReason) :
    (waitForCancellation r).quitReturned = true
    ∧ ((waitForCancellation r).cancelCalled = true ↔ r = .signal) := by
  cases r <;> simp [waitForCancellation]

/-- C8 counterexample: on the context-done outcome the watcher does not
invoke the cancellation function, refuting the claim that both outcomes
invoke it. -/
theorem c8_ctx_done_no_cancel_counterexample :
    (waitForCancellation .ctxDone).cancelCalled = false
    ∧ ¬ (∀ r, (waitForCancellation r).cancelCalled = true) :=
  ⟨rfl, fun h => absurd (h .ctxDone) (by decide)⟩

/-- C9: when the last argument names an existing non-directory file, the
file is taken as the user-supplied plan exactly when the preceding
argument (when present) is not a state flag, exactly or as a
`flag=`-prefix; in that case the plan file is the last argument, plan
generation is skipped and approval is no longer required; otherwise the
temporary plan file's path is appended after `-out` to the plan
arguments and to the apply arguments. -/
theorem c9_plan_file_detection (stat : String → Option Bool)
    (tempName : String) (papa : List String → List String)
    (startId endId : Nat) (args : List String) (lastArg : String)
    (hlast : args.getLast? = some lastArg)
    (hstat : stat lastArg = some false) :
    hasPlanSetOf stat args = ! prevArgEatsFile args
    ∧ (hasPlanSetOf stat args = true →
        (NewTfApplyModel stat tempName papa startId endId args).planFile
            = lastArg
        ∧ (NewTfApplyModel stat tempName papa startId endId args).needPlan
            = false
        ∧ (NewTfApplyModel stat tempName papa startId endId args).needApproval
            = false)
    ∧ (hasPlanSetOf stat args = false →
        (NewTfApplyModel stat tempName papa startId endId args).planFile
            = tempName
        ∧ (NewTfApplyModel stat tempName papa startId endId args).runPlanArgs
            = ("plan" :: papa args) ++ ["-out", tempName]
        ∧ (NewTfApplyModel stat tempName papa startId endId args).args
            = "apply" :: (args ++ [tempName])) := by
  refine ⟨?_, ?_, ?_⟩
  · simp only [hasPlanSetOf, prevArgEatsFile, hlast, hstat]
    split <;> simp
  · intro h
    refine ⟨?_, ?_, ?_⟩ <;> simp [NewTfApplyModel, h, hlast]
  · intro h
    refine ⟨?_, ?_, ?_⟩ <;> simp [NewTfApplyModel, h]

/-- C9 witness: a two-argument vector whose last element is an existing
file and whose first element is not a state flag. -/
theorem c9_plan_file_detection_witness :
    hasPlanSetOf (fun s => if s = "p.tfplan" then some false else none)
        ["-foo", "p.tfplan"]
      = ! prevArgEatsFile ["-foo", "p.tfplan"] :=
  (c9_plan_file_detection (fun s => if s = "p.tfplan" then some false else none)
      "/tmp/t" (fun l => l) 1 2 ["-foo", "p.tfplan"] "p.tfplan"
      (by decide) (by decide)).1

/-- C10: the launch command built on `runTfApplyMsg` carries, as the
child environment, exactly the single entry `AWS_PROFILE=<value>` when
the configured profile is non-empty, and nil when it is empty; per the
process-spawn semantics a non-nil environment is used verbatim (the
parent's is not inherited) and a nil one inherits the parent's. -/
theorem c10_aws_profile_env (aws : String) (m : TfApplyModel)
    (parentEnv : List String) :
    (m.Update aws .runTfApply).2
      = [.execTerraform
          (if aws = "" then none else some ["AWS_PROFILE=" ++ aws]) m.args]
    ∧ childProcessEnv (some ["AWS_PROFILE=" ++ aws]) parentEnv
        = ["AWS_PROFILE=" ++ aws]
    ∧ childProcessEnv none parentEnv = parentEnv :=
  ⟨rfl, rfl, rfl⟩

end OvermindCli
